import Mathlib

/-!
Verification development for the canvas-drawer library.

The JavaScript sources are embedded shallowly: JS numbers are modelled as
`Option ℚ` (`none` standing for NaN), objects as explicit structures with
`Option`-valued fields for possibly-`undefined` members, and thrown
exceptions as `Except`/`Option` results.  Functions that call
`console.warn` return an extra `Bool` component recording whether a
warning was emitted on that execution path.
-/

namespace CanvasHelper

/-- Numeric value of a list of decimal digit characters. -/
def digitsToNat (ds : List Char) : ℕ :=
  ds.foldl (fun n c => 10 * n + (c.toNat - '0'.toNat)) 0

/-- Split a character list at every character satisfying `p`, keeping
empty pieces, as JS `String.prototype.split` does (`"a  b".split(' ')`
is `["a", "", "b"]` and `"".split(' ')` is `[""]`). -/
def splitByPred (p : Char → Bool) : List Char → List (List Char)
  | [] => [[]]
  | c :: cs =>
    let r := splitByPred p cs
    if p c then [] :: r
    else
      match r with
      | [] => [[c]]
      | t :: ts => (c :: t) :: ts

/-- JS `String.prototype.trim`: strip leading and trailing whitespace. -/
def jsTrim (cs : List Char) : List Char :=
  ((cs.dropWhile Char.isWhitespace).reverse.dropWhile Char.isWhitespace).reverse

/-- JS `value.endsWith('px')`. -/
def endsWithPx (cs : List Char) : Bool :=
  match cs.reverse with
  | 'x' :: 'p' :: _ => true
  | _ => false

/-- Decimal shape recognized by JavaScript `parseFloat` on the forms
used by this library: after optional leading whitespace and an optional
sign, an integer part and an optional fractional part, ignoring any
trailing characters (so `"12px"` parses as `12`).  Returns the sign flag
and the two digit groups, or `none` when no digits are found (NaN). -/
def parseFloatParts (cs : List Char) : Option (Bool × List Char × List Char) :=
  let cs₀ := cs.dropWhile (·.isWhitespace)
  let signAndRest : Bool × List Char :=
    match cs₀ with
    | '-' :: rest => (true, rest)
    | '+' :: rest => (false, rest)
    | _ => (false, cs₀)
  let neg := signAndRest.1
  let cs₁ := signAndRest.2
  let intDigits := cs₁.takeWhile (·.isDigit)
  let afterInt := cs₁.dropWhile (·.isDigit)
  let fracDigits : List Char :=
    match afterInt with
    | '.' :: r => r.takeWhile (·.isDigit)
    | _ => []
  if intDigits = [] ∧ fracDigits = [] then none
  else some (neg, intDigits, fracDigits)

/-- Rational value of a parsed decimal literal. -/
def partsVal (neg : Bool) (intDigits fracDigits : List Char) : ℚ :=
  (if neg then -1 else 1) *
    ((digitsToNat intDigits : ℚ) +
      (digitsToNat fracDigits : ℚ) / (10 ^ fracDigits.length))

/-- Embedding of JavaScript `parseFloat`: the value of the recognized
decimal prefix, `none` standing for NaN. -/
def jsParseFloat (s : String) : Option ℚ :=
  (parseFloatParts s.toList).map fun p => partsVal p.1 p.2.1 p.2.2

/-- Result of `pxToNumber` on a string input: a single numeric scalar
(`none` = NaN), an ordered numeric array, or the original value returned
unmodified. -/
inductive PxResult where
  | numv (v : Option ℚ)
  | arrv (vs : List (Option ℚ))
  | unchanged
deriving DecidableEq, Repr

/-- JS `value.split(' ')`: split on single space characters, keeping
empty tokens (`"a  b".split(' ') = ["a","","b"]`). -/
def pxTokens (s : String) : List String :=
  (splitByPred (· == ' ') s.toList).map String.mk

/-- Per-token step of the `pxToNumber` loop: a token ending in `"px"` is
pushed with `parseFloat`'s value even when that value is NaN; otherwise
the token is pushed only when `parseFloat` succeeds, and a failing token
aborts the loop (the source then returns the original value).  `none` of
the outer `Option` marks the abort. -/
def pxTokenVal (t : String) : Option (Option ℚ) :=
  if endsWithPx t.toList then some (jsParseFloat t)
  else
    match jsParseFloat t with
    | some v => some (some v)
    | none => none

/-- The `for (let valueSplited of valuesSplited)` loop of `pxToNumber`,
accumulating parsed values; `none` when some token triggered the
return-original-value branch. -/
def pxLoop : List String → Option (List (Option ℚ))
  | [] => some []
  | t :: ts =>
    match pxTokenVal t with
    | none => none
    | some v => (pxLoop ts).map (v :: ·)

/-- String branch of `CanvasHelper.pxToNumber` (the input has already
passed the `typeof` checks and the falsy check, so it is a non-empty
string).  The `Bool` component records whether `console.warn` ran: the
source of `pxToNumber` contains no `console.warn` call, so it is `false`
on every path. -/
def pxToNumberStr (s : String) : PxResult × Bool :=
  match pxLoop (pxTokens s) with
  | none => (.unchanged, false)
  | some vs =>
    match vs with
    | [v] => (.numv v, false)
    | _ => (.arrv vs, false)

/-- Dynamic JS values appearing in an options bag. `num none` is NaN;
`numArr` is an array of numbers (as produced by `pxToNumber`); `obj` is
an opaque non-array object (gradient spec, reference descriptor, ...). -/
inductive JsVal where
  | num (v : Option ℚ)
  | str (s : String)
  | boolean (b : Bool)
  | nullv
  | undef
  | obj
  | numArr (vs : List (Option ℚ))
deriving DecidableEq, Repr

/-- JS truthiness of a value: `0`, NaN, `""`, `false`, `null` and
`undefined` are falsy; everything else (objects and arrays included) is
truthy. -/
def truthy : JsVal → Bool
  | .num (some v) => v ≠ 0
  | .num none => false
  | .str s => s ≠ ""
  | .boolean b => b
  | .nullv => false
  | .undef => false
  | .obj => true
  | .numArr _ => true

/-- Embedding of `CanvasHelper.pxToNumber` on a dynamic value.  Numbers,
arrays, plain objects and `null` are returned unchanged by the
`typeof value` check (`typeof null` is `'object'`); falsy values
(`undefined`, `false`, `""`) are returned unchanged by the `!value`
check.  The only value reaching the `for..of` loop without being a
string is the boolean `true`, which is not iterable: the loop throws a
TypeError, modelled by `none`. -/
def pxToNumber : JsVal → Option JsVal
  | .num v => some (.num v)
  | .numArr vs => some (.numArr vs)
  | .obj => some .obj
  | .nullv => some .nullv
  | .undef => some .undef
  | .boolean false => some (.boolean false)
  | .boolean true => none
  | .str s =>
    if s = "" then some (.str s)
    else
      match (pxToNumberStr s).1 with
      | .numv v => some (.num v)
      | .arrv vs => some (.numArr vs)
      | .unchanged => some (.str s)

/-- Embedding of `CanvasHelper.pixelParser`: iterate over the entries of
the options bag in order, keep exactly the truthy values, map each kept
value through `pxToNumber`; a TypeError thrown inside `pxToNumber`
propagates (`none`). -/
def pixelParser : List (String × JsVal) → Option (List (String × JsVal))
  | [] => some []
  | (k, v) :: rest =>
    if truthy v then
      match pxToNumber v with
      | none => none
      | some w => (pixelParser rest).map ((k, w) :: ·)
    else pixelParser rest

/-- Embedding of `CanvasHelper.isValidMimeType`. -/
def isValidMimeType (mimeType : String) : Bool :=
  mimeType ∈ ["image/jpeg", "image/png", "image/webp"]

/-- JS `s.trim().split(/\s+/)`: the empty (all-whitespace) string splits
to `[""]`; otherwise the trimmed string splits into its maximal
whitespace-free tokens. -/
def splitWsTokens (s : String) : List String :=
  let t := jsTrim s.toList
  if t = [] then [""]
  else ((splitByPred (·.isWhitespace) t).filter (· ≠ [])).map String.mk

/-- String branch of `CanvasHelper.parseBorderRadius`: trim, split on
whitespace runs, `parseFloat` each part, then expand by the CSS
shorthand rule on the part count; any other count keeps the initial
`[0, 0, 0, 0]` and warns.  The `Bool` component records whether
`console.warn` ran. -/
def parseBorderRadiusStr (borderRadius : String) : List (Option ℚ) × Bool :=
  let parts := (splitWsTokens borderRadius).map jsParseFloat
  match parts with
  | [a] => ([a, a, a, a], false)
  | [a, b] => ([a, b, a, b], false)
  | [a, b, c] => ([a, b, c, b], false)
  | [a, b, c, d] => ([a, b, c, d], false)
  | _ => ([some 0, some 0, some 0, some 0], true)

/-- A positioning reference object (a geometry descriptor used as the
`reference` / `lastReference` argument).  Each field may be `undefined`
(`none`). -/
structure RefObj where
  x : Option ℚ
  y : Option ℚ
  width : Option ℚ
  height : Option ℚ
  radius : Option ℚ
deriving DecidableEq, Repr

/-- The `reference` argument of `calculatePosition`: absent, the string
sentinel `"auto"`, or a reference object. -/
inductive RefParam where
  | noRef
  | auto
  | obj (r : RefObj)
deriving DecidableEq, Repr

/-- An `x` / `y` argument of `calculatePosition`: a number or a string. -/
inductive Coord where
  | num (v : ℚ)
  | str (s : String)
deriving DecidableEq, Repr

/-- JS `a || b || 0` on two possibly-`undefined` numbers, as used for
`referenceNow.width || referenceNow.radius || 0`: the first truthy
(defined and non-zero) value, else `0`. -/
def orSize (a b : Option ℚ) : ℚ :=
  if a.getD 0 ≠ 0 then a.getD 0
  else if b.getD 0 ≠ 0 then b.getD 0
  else 0

/-- Shared preamble of `calculatePosition`:
`reference === 'auto' ? lastReference || null : reference` (a reference
object is always truthy, so `lastReference || null` is just
`lastReference` with `undefined` collapsed to `null`). -/
def referenceNow (reference : RefParam) (lastReference : Option RefObj) :
    Option RefObj :=
  match reference with
  | .auto => lastReference
  | .noRef => none
  | .obj r => some r

/-- ASCII lower-casing of a character code, as
`String.prototype.toLowerCase` acts on the letters relevant here. -/
def lowerCode (n : ℕ) : ℕ :=
  if 65 ≤ n ∧ n ≤ 90 then n + 32 else n

/-- Shared preamble of `calculatePosition`: `typeof x === 'string' &&
x.toLowerCase() === 'center'`, compared at the level of ASCII
character codes. -/
def isCenter : Coord → Bool
  | .num _ => false
  | .str s =>
    s.toList.map (fun c => lowerCode c.toNat)
      = "center".toList.map Char.toNat

/-- Shared preamble of `calculatePosition`: `typeof x === 'string' ? 0 : x`. -/
def initPos : Coord → ℚ
  | .num v => v
  | .str _ => 0

/-- Result of the `shape === 'rectangle'` branch of `calculatePosition`. -/
structure RectPos where
  posX : ℚ
  posY : ℚ
  divWidth : ℚ
  divHeight : ℚ
deriving DecidableEq, Repr

/-- Embedding of the `shape === 'rectangle'` branch of
`CanvasHelper.calculatePosition`.  `canvasWidth`/`canvasHeight` are
`ctx.canvas.width`/`ctx.canvas.height`; `width`/`height` are the (already
numeric) element dimensions. -/
def calculatePositionRect (canvasWidth canvasHeight : ℚ) (x y : Coord)
    (width height : ℚ) (reference : RefParam)
    (lastReference : Option RefObj) : RectPos :=
  let refNow := referenceNow reference lastReference
  let isCenterX := isCenter x
  let isCenterY := isCenter y
  let posX₀ := if isCenterX then (canvasWidth - width) / 2 else initPos x
  let posY₀ := if isCenterY then (canvasHeight - height) / 2 else initPos y
  match refNow with
  | none => ⟨posX₀, posY₀, width, height⟩
  | some r =>
    if isCenterX || isCenterY then
      let posX₁ :=
        if isCenterX ∧ r.x.isSome then
          r.x.getD 0 + (orSize r.width r.radius - width) / 2
        else posX₀
      let posY₁ :=
        if isCenterY ∧ r.y.isSome then
          r.y.getD 0 + (orSize r.height r.radius - height) / 2
        else posY₀
      ⟨posX₁, posY₁, width, height⟩
    else ⟨posX₀, posY₀, width, height⟩

/-- Result of the `shape === 'circle'` branch of `calculatePosition`. -/
structure CirclePos where
  posX : ℚ
  posY : ℚ
  circleRadius : ℚ
deriving DecidableEq, Repr

/-- Embedding of the `shape === 'circle'` branch of
`CanvasHelper.calculatePosition`: centering without a reference uses the
canvas midpoint, with a reference it offsets the reference origin by
half the reference size, and `circleRadius = radius / 2`. -/
def calculatePositionCircle (canvasWidth canvasHeight : ℚ) (x y : Coord)
    (radius : ℚ) (reference : RefParam)
    (lastReference : Option RefObj) : CirclePos :=
  let refNow := referenceNow reference lastReference
  let isCenterX := isCenter x
  let isCenterY := isCenter y
  let posX₀ := if isCenterX then canvasWidth / 2 else initPos x
  let posY₀ := if isCenterY then canvasHeight / 2 else initPos y
  match refNow with
  | none => ⟨posX₀, posY₀, radius / 2⟩
  | some r =>
    if isCenterX || isCenterY then
      let posX₁ :=
        if isCenterX ∧ r.x.isSome then
          r.x.getD 0 + orSize r.width r.radius / 2
        else posX₀
      let posY₁ :=
        if isCenterY ∧ r.y.isSome then
          r.y.getD 0 + orSize r.height r.radius / 2
        else posY₀
      ⟨posX₁, posY₁, radius / 2⟩
    else ⟨posX₀, posY₀, radius / 2⟩

end CanvasHelper

namespace Gradient

/-- One element of the `stops` array of a gradient object spec. -/
structure GradStop where
  offset : Option ℚ
  color : String
deriving DecidableEq, Repr

/-- The `colors` field of a gradient object spec: an array of colors or
a space-separated color string. -/
inductive ColorsField where
  | arr (cs : List String)
  | str (s : String)
deriving DecidableEq, Repr

/-- A `backgroundGradient` / `borderGradient` spec: an array of colors,
a space-separated color string, or an object
`{angle?, stops?, colors?}`. -/
inductive GradientSpec where
  | arr (colors : List String)
  | str (s : String)
  | obj (angle : ℚ) (stops : Option (List GradStop))
      (colors : Option ColorsField)
deriving DecidableEq, Repr

/-- The `gradientColors` extraction block, textually identical in
`RectDrawer.drawRect` and `CircleDrawer.drawCircle`: an array is used
as-is, a string is split on spaces, and for an object the `stops` field
wins (`gradientColors = stops.map(stop => stop.color)`, dropping any
explicit offsets) with `colors` as fallback.  `none` is the case where
neither `stops` nor `colors` is present and `gradientColors` stays
`undefined` (the subsequent `forEach` then throws). -/
def gradientColors : GradientSpec → Option (List String)
  | .arr cs => some cs
  | .str s => some (s.split (· == ' '))
  | .obj _ (some stops) _ => some (stops.map (·.color))
  | .obj _ none (some (.arr cs)) => some cs
  | .obj _ none (some (.str s)) => some (s.split (· == ' '))
  | .obj _ none none => none

/-- The `gradientColors.forEach((color, index) => ...)` block shared by
both drawers: color `i` of `n` is added at offset `i / (n - 1)`
(division by zero, for a single color, is the NaN case; it does not
arise in the claims below). -/
def colorStopsOf (colors : List String) : List (ℚ × String) :=
  (List.range colors.length).zip colors |>.map
    (fun p => ((p.1 : ℚ) / ((colors.length : ℚ) - 1), p.2))

/-- The ordered (offset, color) list a shape renderer passes to
`createLinearGradient(...).addColorStop` for a given gradient spec. -/
def gradStops (g : GradientSpec) : Option (List (ℚ × String)) :=
  (gradientColors g).map colorStopsOf

end Gradient

/-- Outcome of awaiting a `loadFunction()` call: a value, or a thrown
error. -/
inductive LoadOutcome (V : Type) where
  | ok (v : V)
  | err
deriving DecidableEq, Repr

namespace CacheManager

/-- The two cache partitions of `src/drawer/CacheManager.js`:
`cache = { images: {}, elements: {} }`. -/
inductive CacheType where
  | images
  | elements
deriving DecidableEq, Repr

/-- The module-level cache object, each partition an association of keys
to stored values (bitmaps/images: always-truthy JS objects). -/
structure Cache (V : Type) where
  images : List (String × V)
  elements : List (String × V)
deriving DecidableEq, Repr

/-- Lookup `cache[type][key]`. -/
def Cache.lookup (c : Cache V) (type : CacheType) (key : String) :
    Option V :=
  match type with
  | .images => (c.images.find? (·.1 = key)).map (·.2)
  | .elements => (c.elements.find? (·.1 = key)).map (·.2)

/-- Assignment `cache[type][key] = value`. -/
def Cache.set (c : Cache V) (type : CacheType) (key : String) (value : V) :
    Cache V :=
  match type with
  | .images => { c with images := (key, value) :: c.images.filter (·.1 ≠ key) }
  | .elements =>
    { c with elements := (key, value) :: c.elements.filter (·.1 ≠ key) }

/-- Embedding of `CacheManager.getFromCacheOrLoad` (the
`src/drawer/CacheManager.js` version, without per-entry expiration).
The awaited `loadFunction()` is passed as its outcome; `errorImage` is
the awaited `loadImage(imageError404URL)` placeholder.  A thrown error
on a non-image partition is re-thrown (`Except.error`). -/
def getFromCacheOrLoad (c : Cache V) (type : CacheType) (key : String)
    (loadFunction : LoadOutcome V) (errorImage : V) :
    Except Unit (V × Cache V) :=
  match c.lookup type key with
  | some v => .ok (v, c)
  | none =>
    match loadFunction with
    | .ok value => .ok (value, c.set type key value)
    | .err =>
      match type with
      | .images => .ok (errorImage, c.set type key errorImage)
      | .elements => .error ()

/-- Outcome of the cache-handling part of `RectDrawer.drawRect`
(lines 35–39 and 187–189): the bitmap composited onto the target, the
cache afterwards, and whether the offscreen render ran. -/
structure DrawOutcome (V : Type) where
  drawn : V
  cacheAfter : Cache V
  rendered : Bool
deriving DecidableEq, Repr

/-- Cache flow of `RectDrawer.drawRect`: look `cacheKey` up in
`cache.elements`; on a hit composite the stored bitmap without
rendering, on a miss render offscreen (`render` is the produced bitmap),
store it under `cacheKey` and composite it. -/
def drawRectCacheStep (c : Cache V) (cacheKey : String) (render : V) :
    DrawOutcome V :=
  match c.lookup .elements cacheKey with
  | some bmp => ⟨bmp, c, false⟩
  | none => ⟨render, c.set .elements cacheKey render, true⟩

end CacheManager

namespace CacheManagerV2

/-- Expiration time for cache entries: 3 days in milliseconds
(`lib` CacheManager, `src/unnamed/part_010`). -/
def CACHE_EXPIRATION_MS : ℕ := 3 * 24 * 60 * 60 * 1000

/-- Expiration time for error-image placeholder entries: 5 minutes in
milliseconds. -/
def ERROR_IMAGE_EXPIRATION_MS : ℕ := 5 * 60 * 1000

/-- A cache entry `{ value, expiration }`. -/
structure Entry (V : Type) where
  value : V
  expiration : ℕ
deriving DecidableEq, Repr

/-- The module-level `cache = {}`: partitions keyed by a type string,
each an association of keys to entries. -/
def CacheT (V : Type) : Type := List (String × List (String × Entry V))

/-- Lookup `cache[type][key]` (an absent partition reads as empty). -/
def lookupEntry (c : CacheT V) (type key : String) : Option (Entry V) :=
  match (c.find? (·.1 = type)).map (·.2) with
  | none => none
  | some part => (part.find? (·.1 = key)).map (·.2)

/-- Assignment `cache[type][key] = entry` (creating the partition when
absent, as the `if (!cache[type]) cache[type] = {}` guard does). -/
def setEntry (c : CacheT V) (type key : String) (e : Entry V) : CacheT V :=
  let part := ((c.find? (·.1 = type)).map (·.2)).getD []
  (type, (key, e) :: part.filter (·.1 ≠ key)) :: c.filter (·.1 ≠ type)

/-- Embedding of the `lib` version of `getFromCacheOrLoad`
(`src/unnamed/part_010`): a cached entry is returned only while
`Date.now() < expiration`; a fresh load is stored with a 3-day
expiration; a failed image load stores the module-level `errorImage`
placeholder under the same key with a 5-minute expiration, logs a
`console.warn` (the final `Bool` component) and returns the
placeholder, and a failure on any other partition is re-thrown.  `now`
is the value of `Date.now()` during the call. -/
def getFromCacheOrLoad (c : CacheT V) (type key : String) (now : ℕ)
    (loadFunction : LoadOutcome V) (errorImage : V) :
    Except Unit (V × CacheT V × Bool) :=
  let onMiss : Except Unit (V × CacheT V × Bool) :=
    match loadFunction with
    | .ok value =>
      .ok (value, setEntry c type key ⟨value, now + CACHE_EXPIRATION_MS⟩,
        false)
    | .err =>
      if type = "images" then
        .ok (errorImage,
          setEntry c type key ⟨errorImage, now + ERROR_IMAGE_EXPIRATION_MS⟩,
          true)
      else .error ()
  match lookupEntry c type key with
  | some item =>
    if now < item.expiration then .ok (item.value, c, false) else onMiss
  | none => onMiss

end CacheManagerV2

namespace CircleDrawer

/-- The geometry descriptor returned by `CircleDrawer.drawCircle`.  The
`radius` field is `Option`-valued because only one of the two return
statements includes it. -/
structure CircleDescriptor where
  x : ℚ
  y : ℚ
  width : ℚ
  height : ℚ
  radius : Option ℚ
  shape : String
deriving DecidableEq, Repr

/-- Descriptor returned on the cache-hit path of `drawCircle` (line 34):
`{ x: posX, y: posY, width: circleRadius*2, height: circleRadius*2,
radius: circleRadius, shape: "circle" }`. -/
def hitDescriptor (posX posY circleRadius : ℚ) : CircleDescriptor :=
  ⟨posX, posY, circleRadius * 2, circleRadius * 2, some circleRadius,
    "circle"⟩

/-- Descriptor returned on the cache-miss path of `drawCircle`
(line 170): `{ x: posX - circleRadius, y: posY - circleRadius,
width: circleRadius*2, height: circleRadius*2, shape: "circle" }` —
no `radius` field. -/
def missDescriptor (posX posY circleRadius : ℚ) : CircleDescriptor :=
  ⟨posX - circleRadius, posY - circleRadius, circleRadius * 2,
    circleRadius * 2, none, "circle"⟩

end CircleDrawer

namespace CanvasDrawer

/-- Embedding of `CanvasDrawer.getBuffer`: validate the MIME type
against the allow-list, then encode.  `toBuffer` is the raster
backend's `canvas.toBuffer`, an external collaborator, so it is a
parameter; `β` is its buffer type.  An invalid MIME type throws
`Invalid Mime Type` and produces no buffer. -/
def getBuffer (toBuffer : String → ℚ → β) (mimeType : String)
    (quality : ℚ) : Except String β :=
  if ¬ CanvasHelper.isValidMimeType mimeType then
    .error ("Invalid Mime Type: " ++ mimeType)
  else .ok (toBuffer mimeType quality)

/-- Embedding of `CanvasDrawer.generateAttachment`: same validation as
`getBuffer`, then the encoded buffer is wrapped with the file name by
the attachment packager. -/
def generateAttachment (toBuffer : String → ℚ → β) (fileName : String)
    (mimeType : String) (quality : ℚ) : Except String (β × String) :=
  if ¬ CanvasHelper.isValidMimeType mimeType then
    .error ("Invalid Mime Type: " ++ mimeType)
  else .ok (toBuffer mimeType quality, fileName)

end CanvasDrawer


/-! Helper lemmas shared by the claim theorems. -/

/-- The literal string `"center"` passes the case-insensitive
`'center'` test of `calculatePosition`. -/
theorem isCenter_str_center : CanvasHelper.isCenter (.str "center") = true := by
  decide

/-- A numeric coordinate never passes the `'center'` test. -/
theorem isCenter_num (v : ℚ) : CanvasHelper.isCenter (.num v) = false := rfl

/-- With a defined, non-zero `width`, the JS fallback chain
`width || radius || 0` yields the width. -/
theorem orSize_some_ne_zero (rw : ℚ) (rr : Option ℚ) (h : rw ≠ 0) :
    CanvasHelper.orSize (some rw) rr = rw := by
  simp [CanvasHelper.orSize, h]

/-- Evaluation helper for `jsParseFloat` on an unsigned integral token:
once the decidable parsing skeleton and the digit value are computed,
the rational value follows. -/
theorem jsParseFloat_eval (s : String) (ds : List Char) (n : ℕ)
    (h₁ : CanvasHelper.parseFloatParts s.toList = some (false, ds, []))
    (h₂ : CanvasHelper.digitsToNat ds = n) :
    CanvasHelper.jsParseFloat s = some (n : ℚ) := by
  unfold CanvasHelper.jsParseFloat
  rw [h₁]
  simp [CanvasHelper.partsVal, h₂, show CanvasHelper.digitsToNat [] = 0 from
    rfl]

/-- Centering a rectangle on both axes with no reference resolves
against the full surface. -/
theorem calculatePositionRect_noRef (cw ch w h : ℚ)
    (la : Option CanvasHelper.RefObj) :
    CanvasHelper.calculatePositionRect cw ch (.str "center") (.str "center")
      w h .noRef la = ⟨(cw - w) / 2, (ch - h) / 2, w, h⟩ := by
  simp [CanvasHelper.calculatePositionRect, CanvasHelper.referenceNow,
    isCenter_str_center]

/-- Centering a rectangle's x axis against a resolved reference with a
defined origin and a non-zero width. -/
theorem calculatePositionRect_refX (cw ch w h : ℚ) (y : CanvasHelper.Coord)
    (reference : CanvasHelper.RefParam) (la : Option CanvasHelper.RefObj)
    (rx rw : ℚ) (ry rh rr : Option ℚ)
    (href : CanvasHelper.referenceNow reference la
      = some ⟨some rx, ry, some rw, rh, rr⟩)
    (hrw : rw ≠ 0) :
    (CanvasHelper.calculatePositionRect cw ch (.str "center") y w h
      reference la).posX = rx + (rw - w) / 2 := by
  simp [CanvasHelper.calculatePositionRect, href, isCenter_str_center,
    orSize_some_ne_zero rw rr hrw]

/-! Claim theorems. -/

/-- C1: for a rectangle resolved by `calculatePosition`, centering both
axes with no reference gives `((surfaceWidth - width)/2,
(surfaceHeight - height)/2)` — in particular a 50×50 rectangle on a
200×100 surface resolves to `posX = 75`, `posY = 25` — and centering
the x axis against a reference (given directly, or as the sentinel
`"auto"` when `lastReference` holds that descriptor) gives
`posX = reference.x + (reference.width - width)/2`; with reference
`A = (x=10, y=10, width=100, height=60)` a 20-wide rectangle resolves
to `posX = 50`. -/
theorem c1_calculatePosition_center (cw ch w h : ℚ) (y : CanvasHelper.Coord)
    (la : Option CanvasHelper.RefObj) (rx rw : ℚ) (ry rh rr : Option ℚ)
    (hrw : rw ≠ 0) :
    CanvasHelper.calculatePositionRect cw ch (.str "center") (.str "center")
        w h .noRef la = ⟨(cw - w) / 2, (ch - h) / 2, w, h⟩
    ∧ CanvasHelper.calculatePositionRect 200 100 (.str "center")
        (.str "center") 50 50 .noRef none = ⟨75, 25, 50, 50⟩
    ∧ (CanvasHelper.calculatePositionRect cw ch (.str "center") y w h
        (.obj ⟨some rx, ry, some rw, rh, rr⟩) la).posX = rx + (rw - w) / 2
    ∧ (CanvasHelper.calculatePositionRect cw ch (.str "center") y w h
        .auto (some ⟨some rx, ry, some rw, rh, rr⟩)).posX = rx + (rw - w) / 2
    ∧ (CanvasHelper.calculatePositionRect 200 100 (.str "center") (.num 0)
        20 20 (.obj ⟨some 10, some 10, some 100, some 60, none⟩) none).posX
        = 50
    ∧ (CanvasHelper.calculatePositionRect 200 100 (.str "center") (.num 0)
        20 20 .auto (some ⟨some 10, some 10, some 100, some 60, none⟩)).posX
        = 50 := by
  refine ⟨calculatePositionRect_noRef cw ch w h la, ?_,
    calculatePositionRect_refX cw ch w h y _ la rx rw ry rh rr rfl hrw,
    calculatePositionRect_refX cw ch w h y _ _ rx rw ry rh rr rfl hrw,
    ?_, ?_⟩
  · rw [calculatePositionRect_noRef]
    norm_num
  · rw [calculatePositionRect_refX 200 100 20 20 (.num 0)
      (.obj ⟨some 10, some 10, some 100, some 60, none⟩) none 10 100
      (some 10) (some 60) none rfl (by norm_num)]
    norm_num
  · rw [calculatePositionRect_refX 200 100 20 20 (.num 0) .auto
      (some ⟨some 10, some 10, some 100, some 60, none⟩) 10 100
      (some 10) (some 60) none rfl (by norm_num)]
    norm_num

/-- C1 witness: the reference-chaining instance at concrete inputs. -/
theorem c1_witness :
    (CanvasHelper.calculatePositionRect 200 100 (.str "center") (.num 0)
      20 20 (.obj ⟨some 10, some 10, some 100, some 60, none⟩) none).posX
      = 50 :=
  (c1_calculatePosition_center 200 100 20 20 (.num 0) none 10 100 (some 10)
    (some 60) none (by norm_num)).2.2.2.2.1

/-- C2: `parseBorderRadius` expands a shorthand string by the CSS rule
on its token count — one token `a` gives `[a,a,a,a]`, two give
`[a,b,a,b]`, three give `[a,b,c,b]`, four are used positionally, and
any other count (e.g. five tokens) keeps the all-zero default
`[0,0,0,0]` and warns; concretely `"4" → [4,4,4,4]`,
`"4 8" → [4,8,4,8]`, `"4 8 12" → [4,8,12,8]`,
`"4 8 12 16" → [4,8,12,16]`, and `"4 8 12 16 20" → [0,0,0,0]` with a
warning. -/
theorem c2_parseBorderRadius_shorthand (s : String) (a b c d e : Option ℚ)
    (rest : List (Option ℚ)) :
    ((CanvasHelper.splitWsTokens s).map CanvasHelper.jsParseFloat = [a] →
      CanvasHelper.parseBorderRadiusStr s = ([a, a, a, a], false))
    ∧ ((CanvasHelper.splitWsTokens s).map CanvasHelper.jsParseFloat = [a, b] →
      CanvasHelper.parseBorderRadiusStr s = ([a, b, a, b], false))
    ∧ ((CanvasHelper.splitWsTokens s).map CanvasHelper.jsParseFloat
        = [a, b, c] →
      CanvasHelper.parseBorderRadiusStr s = ([a, b, c, b], false))
    ∧ ((CanvasHelper.splitWsTokens s).map CanvasHelper.jsParseFloat
        = [a, b, c, d] →
      CanvasHelper.parseBorderRadiusStr s = ([a, b, c, d], false))
    ∧ ((CanvasHelper.splitWsTokens s).map CanvasHelper.jsParseFloat
        = a :: b :: c :: d :: e :: rest →
      CanvasHelper.parseBorderRadiusStr s
        = ([some 0, some 0, some 0, some 0], true))
    ∧ CanvasHelper.parseBorderRadiusStr "4"
        = ([some 4, some 4, some 4, some 4], false)
    ∧ CanvasHelper.parseBorderRadiusStr "4 8"
        = ([some 4, some 8, some 4, some 8], false)
    ∧ CanvasHelper.parseBorderRadiusStr "4 8 12"
        = ([some 4, some 8, some 12, some 8], false)
    ∧ CanvasHelper.parseBorderRadiusStr "4 8 12 16"
        = ([some 4, some 8, some 12, some 16], false)
    ∧ CanvasHelper.parseBorderRadiusStr "4 8 12 16 20"
        = ([some 0, some 0, some 0, some 0], true) := by
  have j4 : CanvasHelper.jsParseFloat "4" = some 4 :=
    jsParseFloat_eval "4" ['4'] 4 (by decide) (by decide)
  have j8 : CanvasHelper.jsParseFloat "8" = some 8 :=
    jsParseFloat_eval "8" ['8'] 8 (by decide) (by decide)
  have j12 : CanvasHelper.jsParseFloat "12" = some 12 :=
    jsParseFloat_eval "12" ['1', '2'] 12 (by decide) (by decide)
  have j16 : CanvasHelper.jsParseFloat "16" = some 16 :=
    jsParseFloat_eval "16" ['1', '6'] 16 (by decide) (by decide)
  have j20 : CanvasHelper.jsParseFloat "20" = some 20 :=
    jsParseFloat_eval "20" ['2', '0'] 20 (by decide) (by decide)
  refine ⟨fun hp => ?_, fun hp => ?_, fun hp => ?_, fun hp => ?_,
    fun hp => ?_, ?_, ?_, ?_, ?_, ?_⟩
  · simp only [CanvasHelper.parseBorderRadiusStr, hp]
  · simp only [CanvasHelper.parseBorderRadiusStr, hp]
  · simp only [CanvasHelper.parseBorderRadiusStr, hp]
  · simp only [CanvasHelper.parseBorderRadiusStr, hp]
  · simp only [CanvasHelper.parseBorderRadiusStr, hp]
  · have hp : (CanvasHelper.splitWsTokens "4").map CanvasHelper.jsParseFloat
        = [some (4 : ℚ)] := by
      rw [show CanvasHelper.splitWsTokens "4" = ["4"] from by decide]
      simp [j4]
    simp only [CanvasHelper.parseBorderRadiusStr, hp]
  · have hp : (CanvasHelper.splitWsTokens "4 8").map CanvasHelper.jsParseFloat
        = [some (4 : ℚ), some 8] := by
      rw [show CanvasHelper.splitWsTokens "4 8" = ["4", "8"] from by decide]
      simp [j4, j8]
    simp only [CanvasHelper.parseBorderRadiusStr, hp]
  · have hp : (CanvasHelper.splitWsTokens "4 8 12").map
        CanvasHelper.jsParseFloat = [some (4 : ℚ), some 8, some 12] := by
      rw [show CanvasHelper.splitWsTokens "4 8 12" = ["4", "8", "12"] from
        by decide]
      simp [j4, j8, j12]
    simp only [CanvasHelper.parseBorderRadiusStr, hp]
  · have hp : (CanvasHelper.splitWsTokens "4 8 12 16").map
        CanvasHelper.jsParseFloat
        = [some (4 : ℚ), some 8, some 12, some 16] := by
      rw [show CanvasHelper.splitWsTokens "4 8 12 16"
        = ["4", "8", "12", "16"] from by decide]
      simp [j4, j8, j12, j16]
    simp only [CanvasHelper.parseBorderRadiusStr, hp]
  · have hp : (CanvasHelper.splitWsTokens "4 8 12 16 20").map
        CanvasHelper.jsParseFloat
        = [some (4 : ℚ), some 8, some 12, some 16, some 20] := by
      rw [show CanvasHelper.splitWsTokens "4 8 12 16 20"
        = ["4", "8", "12", "16", "20"] from by decide]
      simp [j4, j8, j12, j16, j20]
    simp only [CanvasHelper.parseBorderRadiusStr, hp]

/-- C2 witness: the one-token rule applied at `"4"`. -/
theorem c2_witness :
    CanvasHelper.parseBorderRadiusStr "4"
      = ([some 4, some 4, some 4, some 4], false) :=
  (c2_parseBorderRadius_shorthand "4" (some 4) none none none none []).1
    (by
      rw [show CanvasHelper.splitWsTokens "4" = ["4"] from by decide]
      simp [jsParseFloat_eval "4" ['4'] 4 (by decide) (by decide)])

/-- C3 counterexample: a gradient object spec with explicit stop
offsets 1 and 0 still produces the evenly distributed pairs
[(0, red), (1, blue)] — the explicitly supplied offsets are not
honored. -/
theorem c3_counterexample :
    Gradient.gradStops
        (.obj 0 (some [⟨some 1, "red"⟩, ⟨some 0, "blue"⟩]) none)
      = some [(0, "red"), (1, "blue")]
    ∧ some [((0 : ℚ), "red"), ((1 : ℚ), "blue")]
      ≠ some [((1 : ℚ), "red"), ((0 : ℚ), "blue")] := by
  constructor
  · norm_num [Gradient.gradStops, Gradient.gradientColors,
      Gradient.colorStopsOf, show List.range 2 = [0, 1] from by decide]
  · simp only [ne_eq, Option.some.injEq, List.cons.injEq, Prod.mk.injEq]
    intro h
    exact absurd h.1.1 (by norm_num)

/-- C3 (amended): for an object gradient spec with a `stops` array, the
produced (offset, color) list always distributes the stop colors evenly
across [0,1]; the explicit `offset` fields are ignored, so two stop
lists with the same colors produce the same pairs whatever their
offsets. -/
theorem c3_gradient_stop_offsets (angle : ℚ)
    (stops stops' : List Gradient.GradStop)
    (cf cf' : Option Gradient.ColorsField)
    (hcolors : stops.map Gradient.GradStop.color
      = stops'.map Gradient.GradStop.color) :
    Gradient.gradStops (.obj angle (some stops) cf)
      = some (Gradient.colorStopsOf (stops.map Gradient.GradStop.color))
    ∧ Gradient.gradStops (.obj angle (some stops) cf)
      = Gradient.gradStops (.obj angle (some stops') cf') := by
  refine ⟨rfl, ?_⟩
  simp [Gradient.gradStops, Gradient.gradientColors, hcolors]

/-- C3 witness: two stop lists with equal colors but different explicit
offsets produce the same gradient pairs. -/
theorem c3_witness :
    Gradient.gradStops
        (.obj 0 (some [⟨some 1, "red"⟩, ⟨some 0, "blue"⟩]) none)
      = Gradient.gradStops
        (.obj 0 (some [⟨none, "red"⟩, ⟨some 1, "blue"⟩]) none) :=
  (c3_gradient_stop_offsets 0 [⟨some 1, "red"⟩, ⟨some 0, "blue"⟩]
    [⟨none, "red"⟩, ⟨some 1, "blue"⟩] none none (by decide)).2

/-- C7 counterexample: the bare token `"px"` fails to parse as a number
yet the field is not returned unmodified (a NaN scalar is produced); a
failing token such as `"abc"` returns the field unmodified but logs no
warning; and a double-space input `"4  8"` is returned unmodified
rather than being parsed as two whitespace-separated tokens. -/
theorem c7_counterexample :
    CanvasHelper.pxToNumberStr "px" = (.numv none, false)
    ∧ CanvasHelper.PxResult.numv none ≠ CanvasHelper.PxResult.unchanged
    ∧ CanvasHelper.pxToNumberStr "abc" = (.unchanged, false)
    ∧ CanvasHelper.pxToNumberStr "4  8" = (.unchanged, false) := by
  refine ⟨by decide, by decide, by decide, by decide⟩

/-- C7 (amended): `pxToNumber` on a string splits on single space
characters and processes each token with `parseFloat`, accepting bare
numerics and any `"px"`-suffixed token (the latter pushed as
`parseFloat`'s value even when that is NaN); if every token is accepted
it returns a single scalar for exactly one token and an ordered array
otherwise, and if any non-`"px"` token fails to parse the whole field
is returned unmodified, silently — no warning and never a hard
error. -/
theorem c7_pxToNumber_multivalue (s : String) (v : Option ℚ)
    (vs : List (Option ℚ)) :
    (CanvasHelper.pxLoop (CanvasHelper.pxTokens s) = some [v] →
      CanvasHelper.pxToNumberStr s = (.numv v, false))
    ∧ (CanvasHelper.pxLoop (CanvasHelper.pxTokens s) = some vs →
        vs.length ≠ 1 → CanvasHelper.pxToNumberStr s = (.arrv vs, false))
    ∧ (CanvasHelper.pxLoop (CanvasHelper.pxTokens s) = none →
        CanvasHelper.pxToNumberStr s = (.unchanged, false))
    ∧ CanvasHelper.pxToNumberStr "12px 4" = (.arrv [some 12, some 4], false)
    ∧ CanvasHelper.pxToNumberStr "7" = (.numv (some 7), false)
    ∧ CanvasHelper.pxToNumberStr "abc" = (.unchanged, false) := by
  have e12 : CanvasHelper.jsParseFloat "12px" = some 12 :=
    jsParseFloat_eval "12px" ['1', '2'] 12 (by decide) (by decide)
  have e4 : CanvasHelper.jsParseFloat "4" = some 4 :=
    jsParseFloat_eval "4" ['4'] 4 (by decide) (by decide)
  have e7 : CanvasHelper.jsParseFloat "7" = some 7 :=
    jsParseFloat_eval "7" ['7'] 7 (by decide) (by decide)
  refine ⟨fun hp => ?_, fun hp hlen => ?_, fun hp => ?_, ?_, ?_, ?_⟩
  · simp only [CanvasHelper.pxToNumberStr, hp]
  · match vs, hlen with
    | [], _ => simp only [CanvasHelper.pxToNumberStr, hp]
    | a :: b :: t, _ => simp only [CanvasHelper.pxToNumberStr, hp]
    | [a], h => exact absurd rfl h
  · simp only [CanvasHelper.pxToNumberStr, hp]
  · have hl : CanvasHelper.pxLoop ["12px", "4"]
        = some [some 12, some 4] := by
      simp [CanvasHelper.pxLoop, CanvasHelper.pxTokenVal,
        show CanvasHelper.endsWithPx "12px".toList = true from by decide,
        show CanvasHelper.endsWithPx "4".toList = false from by decide,
        e12, e4]
    unfold CanvasHelper.pxToNumberStr
    rw [show CanvasHelper.pxTokens "12px 4" = ["12px", "4"] from by decide,
      hl]
  · have hl : CanvasHelper.pxLoop ["7"] = some [some 7] := by
      simp [CanvasHelper.pxLoop, CanvasHelper.pxTokenVal,
        show CanvasHelper.endsWithPx "7".toList = false from by decide, e7]
    unfold CanvasHelper.pxToNumberStr
    rw [show CanvasHelper.pxTokens "7" = ["7"] from by decide, hl]
  · decide

/-- C7 witness: the single-scalar rule applied at `"7"`. -/
theorem c7_witness :
    CanvasHelper.pxToNumberStr "7" = (.numv (some 7), false) :=
  (c7_pxToNumber_multivalue "7" (some 7) []).1 (by
    simp [CanvasHelper.pxLoop, CanvasHelper.pxTokenVal,
      show CanvasHelper.pxTokens "7" = ["7"] from by decide,
      show CanvasHelper.endsWithPx "7".toList = false from by decide,
      jsParseFloat_eval "7" ['7'] 7 (by decide) (by decide)])

/-- C8 counterexample: a 50-wide rectangle centered on x against a
reference whose `x` field is undefined resolves to the surface-centered
`posX = 75` on a 200-wide canvas, not to 0. -/
theorem c8_counterexample :
    (CanvasHelper.calculatePositionRect 200 100 (.str "center") (.num 0)
      50 50 (.obj ⟨none, some 10, none, some 60, none⟩) none).posX = 75
    ∧ (75 : ℚ) ≠ 0 := by
  constructor
  · simp [CanvasHelper.calculatePositionRect, CanvasHelper.referenceNow,
      isCenter_str_center, isCenter_num]
    norm_num
  · norm_num

/-- C8 (amended): with `"center"` on an axis and a reference object
missing that axis's origin field, the resolved coordinate keeps the
no-reference surface-centered value — `(canvasWidth - width)/2` for
rectangles and `canvasWidth/2` for circles — silently; it does not
fall back to 0 and no error is raised. -/
theorem c8_center_missing_axis_field (cw ch w h radius : ℚ)
    (y : CanvasHelper.Coord) (la : Option CanvasHelper.RefObj)
    (ry rw rh rr : Option ℚ) :
    (CanvasHelper.calculatePositionRect cw ch (.str "center") y w h
      (.obj ⟨none, ry, rw, rh, rr⟩) la).posX = (cw - w) / 2
    ∧ (CanvasHelper.calculatePositionCircle cw ch (.str "center") y radius
      (.obj ⟨none, ry, rw, rh, rr⟩) la).posX = cw / 2 := by
  constructor <;>
    simp [CanvasHelper.calculatePositionRect,
      CanvasHelper.calculatePositionCircle, CanvasHelper.referenceNow,
      isCenter_str_center]

/-- C9: the geometry descriptor `drawCircle` returns on the cache-hit
path differs from the one returned on the cache-miss path for the same
resolved position — at `x = y = 10`, `radius = 10` (so
`circleRadius = 5`) the hit path returns `x = 10` with a `radius`
field, the miss path `x = 5` without one. -/
theorem c9_drawCircle_descriptor_mismatch :
    CircleDrawer.hitDescriptor
        (CanvasHelper.calculatePositionCircle 200 200 (.num 10) (.num 10) 10
          .noRef none).posX
        (CanvasHelper.calculatePositionCircle 200 200 (.num 10) (.num 10) 10
          .noRef none).posY
        (CanvasHelper.calculatePositionCircle 200 200 (.num 10) (.num 10) 10
          .noRef none).circleRadius
      ≠ CircleDrawer.missDescriptor
        (CanvasHelper.calculatePositionCircle 200 200 (.num 10) (.num 10) 10
          .noRef none).posX
        (CanvasHelper.calculatePositionCircle 200 200 (.num 10) (.num 10) 10
          .noRef none).posY
        (CanvasHelper.calculatePositionCircle 200 200 (.num 10) (.num 10) 10
          .noRef none).circleRadius
    ∧ (CircleDrawer.hitDescriptor 10 10 5).x = 10
    ∧ (CircleDrawer.missDescriptor 10 10 5).x = 5
    ∧ (CircleDrawer.hitDescriptor 10 10 5).x
        ≠ (CircleDrawer.missDescriptor 10 10 5).x
    ∧ (CircleDrawer.hitDescriptor 10 10 5).radius = some 5
    ∧ (CircleDrawer.missDescriptor 10 10 5).radius = none := by
  refine ⟨?_, by norm_num [CircleDrawer.hitDescriptor],
    by norm_num [CircleDrawer.missDescriptor],
    by norm_num [CircleDrawer.hitDescriptor, CircleDrawer.missDescriptor],
    by norm_num [CircleDrawer.hitDescriptor],
    by norm_num [CircleDrawer.missDescriptor]⟩
  intro h
  have hr := congrArg CircleDrawer.CircleDescriptor.radius h
  simp [CircleDrawer.hitDescriptor, CircleDrawer.missDescriptor] at hr

/-- Storing under a key makes that key's lookup return the stored
value. -/
theorem cache_lookup_set {V : Type} (c : CacheManager.Cache V)
    (t : CacheManager.CacheType) (k : String) (v : V) :
    (c.set t k v).lookup t k = some v := by
  cases t <;> simp [CacheManager.Cache.lookup, CacheManager.Cache.set]

/-- Storing an entry makes that key's lookup return the stored entry. -/
theorem cacheV2_lookupEntry_setEntry {V : Type} (c : CacheManagerV2.CacheT V)
    (t k : String) (e : CacheManagerV2.Entry V) :
    CacheManagerV2.lookupEntry (CacheManagerV2.setEntry c t k e) t k
      = some e := by
  simp [CacheManagerV2.lookupEntry, CacheManagerV2.setEntry]

/-- C4: `getFromCacheOrLoad` on a hit returns the stored value without
consulting the load function (the result is fixed whatever the load
outcome is), and on a miss invokes the load, stores its result under
the key and returns it, so that a second call with the same key is a
hit; correspondingly a second `drawRect` with the cache key stored by a
first call does not re-render and composites the identical stored
bitmap. -/
theorem c4_getFromCacheOrLoad_hit_miss {V : Type}
    (c : CacheManager.Cache V) (t : CacheManager.CacheType) (k : String)
    (v w r r' : V) (f f' : LoadOutcome V) (e e' : V) :
    (c.lookup t k = some v →
      CacheManager.getFromCacheOrLoad c t k f e = .ok (v, c))
    ∧ (c.lookup t k = none →
      CacheManager.getFromCacheOrLoad c t k (.ok w) e
          = .ok (w, c.set t k w)
      ∧ (c.set t k w).lookup t k = some w
      ∧ CacheManager.getFromCacheOrLoad (c.set t k w) t k f' e'
          = .ok (w, c.set t k w))
    ∧ ((CacheManager.drawRectCacheStep
          (CacheManager.drawRectCacheStep c k r).cacheAfter k r').rendered
        = false
      ∧ (CacheManager.drawRectCacheStep
          (CacheManager.drawRectCacheStep c k r).cacheAfter k r').drawn
        = (CacheManager.drawRectCacheStep c k r).drawn) := by
  refine ⟨fun h => ?_, fun h => ⟨?_, cache_lookup_set c t k w, ?_⟩, ?_⟩
  · unfold CacheManager.getFromCacheOrLoad
    rw [h]
  · unfold CacheManager.getFromCacheOrLoad
    rw [h]
  · unfold CacheManager.getFromCacheOrLoad
    rw [cache_lookup_set c t k w]
  · rcases hc : c.lookup .elements k with _ | bmp <;>
      simp [CacheManager.drawRectCacheStep, hc, cache_lookup_set]

/-- C4 witness: a miss stores and returns the loaded value, and the
follow-up call hits. -/
theorem c4_witness :
    CacheManager.getFromCacheOrLoad
        (⟨[], []⟩ : CacheManager.Cache ℕ) .elements "k" (.ok 7) 0
      = .ok (7, CacheManager.Cache.set ⟨[], []⟩ .elements "k" 7)
    ∧ CacheManager.getFromCacheOrLoad
        (CacheManager.Cache.set (⟨[], []⟩ : CacheManager.Cache ℕ)
          .elements "k" 7) .elements "k" .err 0
      = .ok (7, CacheManager.Cache.set ⟨[], []⟩ .elements "k" 7) :=
  ⟨((c4_getFromCacheOrLoad_hit_miss ⟨[], []⟩ .elements "k" 0 7 0 0
      (.ok 7) .err 0 0).2.1 rfl).1,
    ((c4_getFromCacheOrLoad_hit_miss ⟨[], []⟩ .elements "k" 0 7 0 0
      (.ok 7) .err 0 0).2.1 rfl).2.2⟩

/-- C5: on the image partition a failed load is not propagated — a
warning is logged and the error-image placeholder is stored under the
same key with the short 5-minute expiration and returned; while the
placeholder is fresh the same key returns it without reloading, and
once it has aged out the next call invokes the load again (and stores
its fresh result); a failed load on a non-image partition is re-thrown;
the placeholder expiration is strictly shorter than the regular 3-day
one. -/
theorem c5_image_placeholder_retry {V : Type} (c : CacheManagerV2.CacheT V)
    (type key : String) (now now₂ : ℕ) (errImg v e₂ : V)
    (hmiss : CacheManagerV2.lookupEntry c "images" key = none)
    (hmiss₂ : CacheManagerV2.lookupEntry c type key = none)
    (htype : type ≠ "images") :
    CacheManagerV2.getFromCacheOrLoad c "images" key now .err errImg
      = .ok (errImg, CacheManagerV2.setEntry c "images" key
          ⟨errImg, now + CacheManagerV2.ERROR_IMAGE_EXPIRATION_MS⟩, true)
    ∧ (now₂ < now + CacheManagerV2.ERROR_IMAGE_EXPIRATION_MS →
      CacheManagerV2.getFromCacheOrLoad
          (CacheManagerV2.setEntry c "images" key
            ⟨errImg, now + CacheManagerV2.ERROR_IMAGE_EXPIRATION_MS⟩)
          "images" key now₂ (.ok v) e₂
        = .ok (errImg, CacheManagerV2.setEntry c "images" key
            ⟨errImg, now + CacheManagerV2.ERROR_IMAGE_EXPIRATION_MS⟩,
            false))
    ∧ (now + CacheManagerV2.ERROR_IMAGE_EXPIRATION_MS ≤ now₂ →
      CacheManagerV2.getFromCacheOrLoad
          (CacheManagerV2.setEntry c "images" key
            ⟨errImg, now + CacheManagerV2.ERROR_IMAGE_EXPIRATION_MS⟩)
          "images" key now₂ (.ok v) e₂
        = .ok (v, CacheManagerV2.setEntry
            (CacheManagerV2.setEntry c "images" key
              ⟨errImg, now + CacheManagerV2.ERROR_IMAGE_EXPIRATION_MS⟩)
            "images" key ⟨v, now₂ + CacheManagerV2.CACHE_EXPIRATION_MS⟩,
            false))
    ∧ CacheManagerV2.getFromCacheOrLoad c type key now .err errImg
        = .error ()
    ∧ CacheManagerV2.ERROR_IMAGE_EXPIRATION_MS
        < CacheManagerV2.CACHE_EXPIRATION_MS := by
  refine ⟨?_, fun h => ?_, fun h => ?_, ?_, by decide⟩
  · simp [CacheManagerV2.getFromCacheOrLoad, hmiss]
  · simp [CacheManagerV2.getFromCacheOrLoad,
      cacheV2_lookupEntry_setEntry, h]
  · simp [CacheManagerV2.getFromCacheOrLoad,
      cacheV2_lookupEntry_setEntry, Nat.not_lt.mpr h]
  · simp [CacheManagerV2.getFromCacheOrLoad, hmiss₂, htype]

/-- C5 witness: the placeholder store-and-return and the non-image
re-throw at a concrete empty cache. -/
theorem c5_witness :
    CacheManagerV2.getFromCacheOrLoad ([] : CacheManagerV2.CacheT ℕ)
        "images" "u" 0 .err 1
      = .ok (1, CacheManagerV2.setEntry [] "images" "u"
          ⟨1, 0 + CacheManagerV2.ERROR_IMAGE_EXPIRATION_MS⟩, true)
    ∧ CacheManagerV2.getFromCacheOrLoad ([] : CacheManagerV2.CacheT ℕ)
        "elements" "u" 0 .err 1 = .error () :=
  ⟨(c5_image_placeholder_retry [] "elements" "u" 0 0 1 2 0 rfl rfl
      (by decide)).1,
    (c5_image_placeholder_retry [] "elements" "u" 0 0 1 2 0 rfl rfl
      (by decide)).2.2.2.1⟩

/-- C6: `getBuffer` and `generateAttachment` validate the requested
encode MIME type against the fixed allow-list
{image/png, image/jpeg, image/webp}: a listed type yields the encoded
buffer, any other type — `"image/gif"` in particular — throws
`Invalid Mime Type` and produces no buffer. -/
theorem c6_mime_allowlist {β : Type} (toBuffer : String → ℚ → β)
    (fileName mt : String) (q : ℚ) :
    (CanvasHelper.isValidMimeType mt = true →
      CanvasDrawer.getBuffer toBuffer mt q = .ok (toBuffer mt q)
      ∧ CanvasDrawer.generateAttachment toBuffer fileName mt q
          = .ok (toBuffer mt q, fileName))
    ∧ (CanvasHelper.isValidMimeType mt = false →
      CanvasDrawer.getBuffer toBuffer mt q
          = .error ("Invalid Mime Type: " ++ mt)
      ∧ CanvasDrawer.generateAttachment toBuffer fileName mt q
          = .error ("Invalid Mime Type: " ++ mt))
    ∧ (CanvasHelper.isValidMimeType mt = true ↔
        mt = "image/png" ∨ mt = "image/jpeg" ∨ mt = "image/webp")
    ∧ CanvasDrawer.getBuffer toBuffer "image/gif" q
        = .error "Invalid Mime Type: image/gif"
    ∧ CanvasDrawer.generateAttachment toBuffer fileName "image/gif" q
        = .error "Invalid Mime Type: image/gif" := by
  refine ⟨fun h => ?_, fun h => ?_, ?_, ?_, ?_⟩
  · constructor <;>
      simp [CanvasDrawer.getBuffer, CanvasDrawer.generateAttachment, h]
  · constructor <;>
      simp [CanvasDrawer.getBuffer, CanvasDrawer.generateAttachment, h]
  · simp only [CanvasHelper.isValidMimeType, List.mem_cons,
      List.not_mem_nil, or_false, decide_eq_true_eq]
    tauto
  · simp [CanvasDrawer.getBuffer,
      show CanvasHelper.isValidMimeType "image/gif" = false from by decide]
  · simp [CanvasDrawer.generateAttachment,
      show CanvasHelper.isValidMimeType "image/gif" = false from by decide]

/-- C6 witness: a listed type yields a buffer, at a concrete encoder. -/
theorem c6_witness :
    CanvasDrawer.getBuffer (fun _ _ => (0 : ℕ)) "image/png" 1
      = .ok 0 :=
  ((c6_mime_allowlist (fun _ _ => (0 : ℕ)) "out.png" "image/png" 1).1
    (by decide)).1

/-- C10 counterexample: an options bag whose (truthy) value is the
boolean `true` makes `pxToNumber` throw inside `pixelParser`
(`for..of` over a boolean), so no object at all is returned. -/
theorem c10_counterexample :
    CanvasHelper.truthy (.boolean true) = true
    ∧ CanvasHelper.pixelParser [("opacity", .boolean true)] = none := by
  exact ⟨rfl, rfl⟩

/-- C10 (amended): `pixelParser` keeps exactly the keys with truthy
values, in order, each mapped through `pxToNumber`, and drops every
falsy value (0, NaN, empty string, null, undefined, false) — so an
explicit numeric 0 does not survive — with the proviso that a
`pxToNumber` exception (thrown exactly for the boolean `true`)
propagates and then no object is returned. -/
theorem c10_pixelParser_truthy_filter
    (options rest : List (String × CanvasHelper.JsVal)) (k : String)
    (v : CanvasHelper.JsVal) :
    CanvasHelper.pixelParser options
      = (options.filter (fun p => CanvasHelper.truthy p.2)).foldr
          (fun p acc => (CanvasHelper.pxToNumber p.2).bind
            fun w => acc.map ((p.1, w) :: ·))
          (some [])
    ∧ (CanvasHelper.truthy v = false →
        CanvasHelper.pixelParser ((k, v) :: rest)
          = CanvasHelper.pixelParser rest)
    ∧ (CanvasHelper.truthy v = true →
        CanvasHelper.pixelParser ((k, v) :: rest)
          = (CanvasHelper.pxToNumber v).bind
              fun w => (CanvasHelper.pixelParser rest).map ((k, w) :: ·))
    ∧ CanvasHelper.pixelParser
        [("width", .num (some 0)), ("height", .str "4"),
         ("color", .str "red"), ("pad", .str ""), ("n", .nullv),
         ("u", .undef), ("f", .boolean false), ("z", .num none)]
      = some [("height", .num (some 4)), ("color", .str "red")] := by
  refine ⟨?_, fun hv => ?_, fun hv => ?_, ?_⟩
  · induction options with
    | nil => rfl
    | cons p rest' ih =>
      obtain ⟨k', v'⟩ := p
      cases hv : CanvasHelper.truthy v' with
      | false => simp [CanvasHelper.pixelParser, hv, ih]
      | true =>
        cases hpx : CanvasHelper.pxToNumber v' with
        | none => simp [CanvasHelper.pixelParser, hv, hpx]
        | some w => simp [CanvasHelper.pixelParser, hv, hpx, ih]
  · simp [CanvasHelper.pixelParser, hv]
  · cases hpx : CanvasHelper.pxToNumber v with
    | none => simp [CanvasHelper.pixelParser, hv, hpx]
    | some w => simp [CanvasHelper.pixelParser, hv, hpx]
  · have h4 : CanvasHelper.pxToNumberStr "4" = (.numv (some 4), false) := by
      have e4 : CanvasHelper.jsParseFloat "4" = some 4 :=
        jsParseFloat_eval "4" ['4'] 4 (by decide) (by decide)
      have hl : CanvasHelper.pxLoop ["4"] = some [some 4] := by
        simp [CanvasHelper.pxLoop, CanvasHelper.pxTokenVal,
          show CanvasHelper.endsWithPx "4".toList = false from by decide, e4]
      unfold CanvasHelper.pxToNumberStr
      rw [show CanvasHelper.pxTokens "4" = ["4"] from by decide, hl]
    have hred : CanvasHelper.pxToNumberStr "red" = (.unchanged, false) := by
      decide
    have htr0 : CanvasHelper.truthy (.num (some 0)) = false := by
      simp [CanvasHelper.truthy]
    simp [CanvasHelper.pixelParser, CanvasHelper.pxToNumber,
      CanvasHelper.truthy, htr0, h4, hred]

/-- C10 witness: a falsy numeric 0 entry is dropped, at a concrete
bag. -/
theorem c10_witness :
    CanvasHelper.pixelParser [("width", CanvasHelper.JsVal.num (some 0))]
      = CanvasHelper.pixelParser [] :=
  (c10_pixelParser_truthy_filter [] [] "width" (.num (some 0))).2.1
    (by simp [CanvasHelper.truthy])
